import Mathlib

/-!
Verification development for the shard-routing and catalog layer of the
marconi message-queue service.

The definitions below are a shallow embedding of
`marconi/queues/storage/sharding.py` (Catalog, QueueController,
MessageController, ClaimController) and
`marconi/proxy/storage/mongodb/partitions.py` (PartitionsController.update).
Python exceptions are modelled with `Except Err`; the mutable state of the
catalogue store, the shard store and the in-process driver cache is threaded
explicitly as a `CatalogState`.  Backend storage drivers are opaque values
(`Driver`) whose per-resource controller operations are function fields, since
the concrete backends are external collaborators; `factory` stands for the
injected driver factory (`utils.load_storage_driver` applied to the derived
configuration).
-/

/-- Errors raised by the embedded code: `QueueDoesNotExist`,
`ClaimDoesNotExist`, `QueueNotMapped` (internal, caught by `Catalog.lookup`),
`NoShardFound`, the shard store's NotFound, `PartitionNotFound`, and Python
`AssertionError` with its message. -/
inductive Err where
  | queueDoesNotExist : Err
  | claimDoesNotExist : Err
  | queueNotMapped : Err
  | noShardFound : Err
  | notFound : Err
  | partitionNotFound : Err
  | assertionError : String → Err
deriving DecidableEq, Repr

/-- A shard record as stored in the shard store: name, weight, connection URI
and backend-specific options (`{id, weight, uri, options}` per the record
shape). -/
structure Shard where
  name : String
  weight : Nat
  uri : String
  options : List (String × String)
deriving DecidableEq, Repr

/-- A backend storage driver, as produced by the injected driver factory.  The
`tag` distinguishes instances (each construction yields a fresh object).  The
controller operations forwarded to by the routing controllers are function
fields; message bodies and claim payloads are abstracted as `Nat`, metadata as
`String`. -/
structure Driver where
  tag : Nat
  queue_create : String → Option String → Except Err Bool
  queue_delete : String → Option String → Except Err (Option Unit)
  message_post : String → Option String → List Nat → String → Except Err (List String)
  message_get : String → String → Option String → Except Err Nat
  message_list : String → Option String → Except Err (List (List Nat))
  message_delete : String → Option String → String → Option String → Except Err (Option Unit)
  message_bulk_delete : String → Option String → List String → Except Err (Option Unit)
  message_bulk_get : String → Option String → List String → Except Err (List Nat)
  claim_create : String → String → Option String → Option Nat → Except Err (Option String × List Nat)
  claim_get : String → String → Option String → Except Err Nat
  claim_update : String → String → String → Option String → Except Err Unit
  claim_delete : String → String → Option String → Except Err (Option Unit)

/-- Key of a catalogue entry: `(project, queue)`; `project = none` is the
global project. -/
abbrev CatKey := Option String × String

/-- First-match association-list lookup (dict read). -/
def alookup {α β : Type} [DecidableEq α] : List (α × β) → α → Option β
  | [], _ => none
  | (k, v) :: rest, a => if k = a then some v else alookup rest a

/-- Remove every binding of a key (dict deletion). -/
def aremove {α β : Type} [DecidableEq α] : List (α × β) → α → List (α × β)
  | [], _ => []
  | (k, v) :: rest, a => if k = a then aremove rest a else (k, v) :: aremove rest a

/-- Overwriting insert (dict assignment). -/
def aset {α β : Type} [DecidableEq α] (l : List (α × β)) (a : α) (b : β) :
    List (α × β) :=
  (a, b) :: aremove l a

/-- The state visible to the sharding layer: the durable catalogue store
(`(project, queue) → shard_id`), the durable shard store, and the in-process
driver cache `Catalog._drivers` (`shard_id → driver`). -/
structure CatalogState where
  catalogue : List (CatKey × String)
  shards : List Shard
  drivers : List (String × Driver)

/-- Modelled from the spec: the durable catalogue store
(`control.catalogue_controller`, not under src/) — `exists` keyed by
`(project, queue)`. -/
def catExists (cat : List (CatKey × String)) (project : Option String)
    (queue : String) : Bool :=
  (alookup cat (project, queue)).isSome

/-- Modelled from the spec: the catalogue store's `get`, which yields the
mapped `shard_id` and fails with QueueNotMapped when the entry is absent
(`Catalog.lookup` catches exactly that error). -/
def catGet (cat : List (CatKey × String)) (project : Option String)
    (queue : String) : Except Err String :=
  match alookup cat (project, queue) with
  | some sid => .ok sid
  | none => .error .queueNotMapped

/-- Modelled from the spec: the catalogue store's `insert`,
`(project, queue) → shard_id`, last writer wins. -/
def catInsert (cat : List (CatKey × String)) (project : Option String)
    (queue : String) (sid : String) : List (CatKey × String) :=
  aset cat (project, queue) sid

/-- Modelled from the spec: the catalogue store's `delete` — unconditional
removal of the entry, idempotent, no error when absent. -/
def catDelete (cat : List (CatKey × String)) (project : Option String)
    (queue : String) : List (CatKey × String) :=
  aremove cat (project, queue)

/-- Modelled from the spec: the shard store's `get(id)` (§4.2, shards
controller not under src/) — returns the record, fails with NotFound if
absent. -/
def shardsGet (shards : List Shard) (sid : String) : Except Err Shard :=
  match shards.find? (fun sh => sh.name = sid) with
  | some sh => .ok sh
  | none => .error .notFound

/-- Modelled from the spec: the shard store's `list` with `limit=0`
(unlimited) — all records. -/
def shardsList (shards : List Shard) : List Shard := shards

/-- Cumulative-weight walk: return the first candidate whose cumulative weight
exceeds the drawn point. -/
def pickWeighted : List Shard → Nat → Option Shard
  | [], _ => none
  | sh :: rest, r => if r < sh.weight then some sh else pickWeighted rest (r - sh.weight)

/-- Modelled from the spec: the Weighted Selector `select.weighted` (§4.1, not
under src/) — total weight 0 or empty input yields none; otherwise a point `r`
drawn in `[0, total)` selects the first candidate whose cumulative weight
exceeds it.  The random draw is made explicit as the parameter `r`. -/
def weighted (candidates : List Shard) (r : Nat) : Option Shard :=
  let total := (candidates.map Shard.weight).sum
  if total = 0 then none else pickWeighted candidates (r % total)

/-- `Catalog._init_driver(shard_id)`: fetch the shard record from the shard
store (NotFound if absent), derive the backend configuration from its URI and
options, and invoke the injected driver factory. -/
def Catalog.initDriver (factory : Shard → Driver) (s : CatalogState)
    (sid : String) : Except Err Driver :=
  match shardsGet s.shards sid with
  | .error e => .error e
  | .ok sh => .ok (factory sh)

/-- `Catalog.register(queue, project)`: no-op when the catalogue already has
the entry; otherwise run the Weighted Selector over all shard records
(`limit=0`), raise NoShardFound on none, else insert
`(project, queue) → shard['name']`.  `r` is the selector's random draw. -/
def Catalog.register (s : CatalogState) (r : Nat) (queue : String)
    (project : Option String) : Except Err Unit × CatalogState :=
  if catExists s.catalogue project queue then (.ok (), s)
  else
    match weighted (shardsList s.shards) r with
    | none => (.error .noShardFound, s)
    | some sh =>
        (.ok (), { s with catalogue := catInsert s.catalogue project queue sh.name })

/-- `Catalog.deregister(queue, project)`: delete the catalogue entry. -/
def Catalog.deregister (s : CatalogState) (queue : String)
    (project : Option String) : CatalogState :=
  { s with catalogue := catDelete s.catalogue project queue }

/-- `Catalog.lookup(queue, project)`: resolve the shard id from the catalogue
(returning none when QueueNotMapped is raised), then return the cached driver
for that shard id, or build one via `_init_driver` and cache it. -/
def Catalog.lookup (factory : Shard → Driver) (s : CatalogState)
    (queue : String) (project : Option String) :
    Except Err (Option Driver) × CatalogState :=
  match catGet s.catalogue project queue with
  | .error e =>
      if e = .queueNotMapped then (.ok none, s) else (.error e, s)
  | .ok sid =>
      match alookup s.drivers sid with
      | some d => (.ok (some d), s)
      | none =>
          match Catalog.initDriver factory s sid with
          | .error e => (.error e, s)
          | .ok d => (.ok (some d), { s with drivers := aset s.drivers sid d })

/-- `QueueController.create(name, project)`: register in the catalog, then
assert that an immediate lookup yields a driver (`assert target, 'Failed to
register queue'` — a bare AssertionError when it does not), then forward to the
target shard's queue controller. -/
def QueueController.create (factory : Shard → Driver) (s : CatalogState)
    (r : Nat) (name : String) (project : Option String) :
    Except Err Bool × CatalogState :=
  match Catalog.register s r name project with
  | (.error e, s') => (.error e, s')
  | (.ok _, s') =>
      match Catalog.lookup factory s' name project with
      | (.error e, s'') => (.error e, s'')
      | (.ok none, s'') => (.error (.assertionError "Failed to register queue"), s'')
      | (.ok (some target), s'') => (target.queue_create name project, s'')

/-- `QueueController.create` with the race window made explicit: the source
comment notes that between `register` and the subsequent lookup a concurrent
deletion may remove the entry, failing the assertion.  `interfere` is the
(possibly empty) concurrent effect applied to the state in that window. -/
def QueueController.createRaced (factory : Shard → Driver)
    (interfere : CatalogState → CatalogState) (s : CatalogState) (r : Nat)
    (name : String) (project : Option String) :
    Except Err Bool × CatalogState :=
  match Catalog.register s r name project with
  | (.error e, s') => (.error e, s')
  | (.ok _, s') =>
      match Catalog.lookup factory (interfere s') name project with
      | (.error e, s'') => (.error e, s'')
      | (.ok none, s'') => (.error (.assertionError "Failed to register queue"), s'')
      | (.ok (some target), s'') => (target.queue_create name project, s'')

/-- `QueueController.delete(name, project)`: if unmapped, return None;
otherwise first forward the delete to the owning shard's queue controller and,
iff that succeeds, deregister the catalogue entry and return the backend's
result. -/
def QueueController.delete (factory : Shard → Driver) (s : CatalogState)
    (name : String) (project : Option String) :
    Except Err (Option Unit) × CatalogState :=
  match Catalog.lookup factory s name project with
  | (.error e, s') => (.error e, s')
  | (.ok none, s') => (.ok none, s')
  | (.ok (some target), s') =>
      match target.queue_delete name project with
      | .error e => (.error e, s')
      | .ok ret => (.ok ret, Catalog.deregister s' name project)

/-- Sharded `MessageController.post`: forward when mapped, raise
QueueDoesNotExist when unmapped. -/
def MessageController.post (factory : Shard → Driver) (s : CatalogState)
    (queue : String) (project : Option String) (messages : List Nat)
    (client_uuid : String) : Except Err (List String) × CatalogState :=
  match Catalog.lookup factory s queue project with
  | (.error e, s') => (.error e, s')
  | (.ok (some t), s') => (t.message_post queue project messages client_uuid, s')
  | (.ok none, s') => (.error .queueDoesNotExist, s')

/-- Sharded `MessageController.get`: forward when mapped, raise
QueueDoesNotExist when unmapped. -/
def MessageController.get (factory : Shard → Driver) (s : CatalogState)
    (queue : String) (message_id : String) (project : Option String) :
    Except Err Nat × CatalogState :=
  match Catalog.lookup factory s queue project with
  | (.error e, s') => (.error e, s')
  | (.ok (some t), s') => (t.message_get queue message_id project, s')
  | (.ok none, s') => (.error .queueDoesNotExist, s')

/-- Sharded `MessageController.list`: forward when mapped; when unmapped,
return `iter([[]])` — a listing holding a single empty page, i.e. no
messages. -/
def MessageController.list (factory : Shard → Driver) (s : CatalogState)
    (queue : String) (project : Option String) :
    Except Err (List (List Nat)) × CatalogState :=
  match Catalog.lookup factory s queue project with
  | (.error e, s') => (.error e, s')
  | (.ok (some t), s') => (t.message_list queue project, s')
  | (.ok none, s') => (.ok [[]], s')

/-- Sharded `MessageController.delete`: forward when mapped; return None when
unmapped. -/
def MessageController.delete (factory : Shard → Driver) (s : CatalogState)
    (queue : String) (project : Option String) (message_id : String)
    (claim : Option String) : Except Err (Option Unit) × CatalogState :=
  match Catalog.lookup factory s queue project with
  | (.error e, s') => (.error e, s')
  | (.ok (some t), s') => (t.message_delete queue project message_id claim, s')
  | (.ok none, s') => (.ok none, s')

/-- Sharded `MessageController.bulk_delete`: forward when mapped; return None
when unmapped. -/
def MessageController.bulk_delete (factory : Shard → Driver) (s : CatalogState)
    (queue : String) (project : Option String) (message_ids : List String) :
    Except Err (Option Unit) × CatalogState :=
  match Catalog.lookup factory s queue project with
  | (.error e, s') => (.error e, s')
  | (.ok (some t), s') => (t.message_bulk_delete queue project message_ids, s')
  | (.ok none, s') => (.ok none, s')

/-- Sharded `MessageController.bulk_get`: forward when mapped; return the
empty list when unmapped. -/
def MessageController.bulk_get (factory : Shard → Driver) (s : CatalogState)
    (queue : String) (project : Option String) (message_ids : List String) :
    Except Err (List Nat) × CatalogState :=
  match Catalog.lookup factory s queue project with
  | (.error e, s') => (.error e, s')
  | (.ok (some t), s') => (t.message_bulk_get queue project message_ids, s')
  | (.ok none, s') => (.ok [], s')

/-- Sharded `ClaimController.create`: forward when mapped; when unmapped,
return `[None, []]` — no claim and no messages. -/
def ClaimController.create (factory : Shard → Driver) (s : CatalogState)
    (queue : String) (metadata : String) (project : Option String)
    (limit : Option Nat) : Except Err (Option String × List Nat) × CatalogState :=
  match Catalog.lookup factory s queue project with
  | (.error e, s') => (.error e, s')
  | (.ok (some t), s') => (t.claim_create queue metadata project limit, s')
  | (.ok none, s') => (.ok (none, []), s')

/-- Sharded `ClaimController.get`: forward when mapped; raise
ClaimDoesNotExist when unmapped. -/
def ClaimController.get (factory : Shard → Driver) (s : CatalogState)
    (queue : String) (claim_id : String) (project : Option String) :
    Except Err Nat × CatalogState :=
  match Catalog.lookup factory s queue project with
  | (.error e, s') => (.error e, s')
  | (.ok (some t), s') => (t.claim_get queue claim_id project, s')
  | (.ok none, s') => (.error .claimDoesNotExist, s')

/-- Sharded `ClaimController.update`: forward when mapped; raise
ClaimDoesNotExist when unmapped. -/
def ClaimController.update (factory : Shard → Driver) (s : CatalogState)
    (queue : String) (claim_id : String) (metadata : String)
    (project : Option String) : Except Err Unit × CatalogState :=
  match Catalog.lookup factory s queue project with
  | (.error e, s') => (.error e, s')
  | (.ok (some t), s') => (t.claim_update queue claim_id metadata project, s')
  | (.ok none, s') => (.error .claimDoesNotExist, s')

/-- Sharded `ClaimController.delete`: forward when mapped; return None when
unmapped (it does not raise). -/
def ClaimController.delete (factory : Shard → Driver) (s : CatalogState)
    (queue : String) (claim_id : String) (project : Option String) :
    Except Err (Option Unit) × CatalogState :=
  match Catalog.lookup factory s queue project with
  | (.error e, s') => (.error e, s')
  | (.ok (some t), s') => (t.claim_delete queue claim_id project, s')
  | (.ok none, s') => (.ok none, s')

/-- A proxy partition record as stored in mongodb: `{'n': name, 'h': hosts,
'w': weight}`. -/
structure Partition where
  n : String
  h : List String
  w : Nat
deriving DecidableEq, Repr

/-- Apply `$set` of the supplied fields to the first record matching the name
(the collection has a unique index on `n`); returns none when no record
matched (`updatedExisting` false, `upsert=False`). -/
def setFields : List Partition → String → Option Nat → Option (List String) →
    Option (List Partition)
  | [], _, _, _ => none
  | rec :: rest, name, weight, hosts =>
      if rec.n = name then
        some ({ rec with w := weight.getD rec.w, h := hosts.getD rec.h } :: rest)
      else
        match setFields rest name weight hosts with
        | some rest' => some (rec :: rest')
        | none => none

/-- `PartitionsController.update(name, **kwargs)`: keep only the supplied
`weight`/`hosts` fields (dropping None values), `assert fields` — an
AssertionError (argument error) when neither is supplied — then `$set` with
`upsert=False` and raise PartitionNotFound when no existing record was
updated. -/
def PartitionsController.update (db : List Partition) (name : String)
    (weight : Option Nat) (hosts : Option (List String)) :
    Except Err (List Partition) :=
  if weight = none ∧ hosts = none then
    .error (.assertionError "`hosts` or `weight` not found in kwargs")
  else
    match setFields db name weight hosts with
    | some db' => .ok db'
    | none => .error .partitionNotFound

/-- A numbered driver factory for exhibiting instance identity: the `k`-th
construction yields a driver whose `tag` is `k`. -/
def mkDriver (k : Nat) : Driver where
  tag := k
  queue_create := fun _ _ => .ok true
  queue_delete := fun _ _ => .ok (some ())
  message_post := fun _ _ _ _ => .ok []
  message_get := fun _ _ _ => .ok 0
  message_list := fun _ _ => .ok []
  message_delete := fun _ _ _ _ => .ok none
  message_bulk_delete := fun _ _ _ => .ok none
  message_bulk_get := fun _ _ _ => .ok []
  claim_create := fun _ _ _ _ => .ok (none, [])
  claim_get := fun _ _ _ => .ok 0
  claim_update := fun _ _ _ _ => .ok ()
  claim_delete := fun _ _ _ => .ok none

/-- A fixed driver instance used for concrete witness states. -/
def defaultDriver : Driver := mkDriver 0

/-- A driver factory that ignores the shard record, for concrete witness
states. -/
def defaultFactory : Shard → Driver := fun _ => defaultDriver

/-- Interleaving of two callers concurrently performing the first use of
`Catalog.lookup`'s driver-cache path for the same shard id.  Both execute the
cache read of `self._drivers[shard_id]` (taking the KeyError branch) before
either executes `self._drivers[shard_id] = driver = self._init_driver(...)`
— a schedule the code permits, since `_init_driver` performs blocking store
I/O between the check and the insert and no lock guards the sequence.
`build k` is the `k`-th driver construction.  Returns the drivers observed by
each caller and the final state, or none when the schedule does not apply
(some caller would hit the cache). -/
def lookupFirstUseRace (build : Nat → Driver) (s : CatalogState)
    (sid : String) : Option (Driver × Driver × CatalogState) :=
  match alookup s.drivers sid, alookup s.drivers sid with
  | none, none =>
      let dA := build 0
      let s₁ : CatalogState := { s with drivers := aset s.drivers sid dA }
      let dB := build 1
      let s₂ : CatalogState := { s₁ with drivers := aset s₁.drivers sid dB }
      some (dA, dB, s₂)
  | _, _ => none

theorem alookup_aset_self {α β : Type} [DecidableEq α] (l : List (α × β))
    (a : α) (b : β) : alookup (aset l a b) a = some b := by
  simp [aset, alookup]

theorem alookup_aremove_self {α β : Type} [DecidableEq α] (l : List (α × β))
    (a : α) : alookup (aremove l a) a = none := by
  induction l with
  | nil => rfl
  | cons hd tl ih =>
      obtain ⟨k, v⟩ := hd
      by_cases hk : k = a
      · simp [aremove, hk, ih]
      · simp [aremove, alookup, hk, ih]

theorem aremove_idem {α β : Type} [DecidableEq α] (l : List (α × β))
    (a : α) : aremove (aremove l a) a = aremove l a := by
  induction l with
  | nil => rfl
  | cons hd tl ih =>
      obtain ⟨k, v⟩ := hd
      by_cases hk : k = a
      · simp [aremove, hk, ih]
      · simp [aremove, hk, ih]

theorem register_ok_exists (s : CatalogState) (r : Nat) (queue : String)
    (project : Option String)
    (h : (Catalog.register s r queue project).fst = .ok ()) :
    catExists (Catalog.register s r queue project).snd.catalogue project queue
      = true := by
  unfold Catalog.register at *
  by_cases hex : catExists s.catalogue project queue
  · simp [hex]
  · simp [hex] at h ⊢
    cases hw : weighted (shardsList s.shards) r with
    | none => simp [hw] at h
    | some sh =>
        simp [hw, catExists, catInsert, alookup_aset_self]

/-- C2: `Catalog.register` is idempotent for a fixed `(project, queue)`:
when an entry already exists the call returns successfully and leaves the
state unchanged (no selection, no insert, for every random draw), and after
any successful `register` a second call — with any random draw — is a no-op. -/
theorem register_idempotent (s : CatalogState) (queue : String)
    (project : Option String) :
    (∀ r : Nat, catExists s.catalogue project queue = true →
        Catalog.register s r queue project = (.ok (), s)) ∧
    (∀ r₁ r₂ : Nat, (Catalog.register s r₁ queue project).fst = .ok () →
        Catalog.register (Catalog.register s r₁ queue project).snd r₂ queue project
          = (.ok (), (Catalog.register s r₁ queue project).snd)) := by
  constructor
  · intro r hex
    simp [Catalog.register, hex]
  · intro r₁ r₂ h
    have hex := register_ok_exists s r₁ queue project h
    generalize hgen : (Catalog.register s r₁ queue project).snd = s' at hex ⊢
    simp [Catalog.register, hex]

theorem register_idempotent_witness :
    Catalog.register
        (CatalogState.mk [((some "p", "q"), "s1")] [] []) 7 "q" (some "p")
      = (.ok (), CatalogState.mk [((some "p", "q"), "s1")] [] []) :=
  (register_idempotent (CatalogState.mk [((some "p", "q"), "s1")] [] [])
      "q" (some "p")).1 7 rfl

/-- C3: when the shard store is empty (so the Weighted Selector yields none)
and `(project, queue)` is unmapped, `QueueController.create` fails with
NoShardFound and the state — in particular the catalogue — is unchanged: no
entry for `(project, queue)` exists before or after the failure. -/
theorem create_no_shard (factory : Shard → Driver) (s : CatalogState)
    (r : Nat) (name : String) (project : Option String)
    (hsh : s.shards = [])
    (hun : alookup s.catalogue (project, name) = none) :
    QueueController.create factory s r name project = (.error .noShardFound, s) ∧
    alookup (QueueController.create factory s r name project).snd.catalogue
        (project, name) = none := by
  have hex : catExists s.catalogue project name = false := by
    simp [catExists, hun]
  have hreg : Catalog.register s r name project = (.error .noShardFound, s) := by
    simp [Catalog.register, hex, shardsList, hsh, weighted]
  constructor
  · simp [QueueController.create, hreg]
  · simp [QueueController.create, hreg, hun]

theorem create_no_shard_witness :
    QueueController.create defaultFactory (CatalogState.mk [] [] []) 0 "q" none
      = (.error .noShardFound, CatalogState.mk [] [] []) :=
  (create_no_shard defaultFactory (CatalogState.mk [] [] []) 0 "q" none
      rfl rfl).1

/-- C4: `Catalog.deregister` deletes the catalogue entry unconditionally —
a subsequent `Catalog.lookup` of the same `(project, queue)` yields none (with
the state untouched), the entry is gone from the catalogue, and a second
`deregister` is a no-op (idempotence). -/
theorem deregister_lookup_none (factory : Shard → Driver) (s : CatalogState)
    (queue : String) (project : Option String) :
    Catalog.lookup factory (Catalog.deregister s queue project) queue project
        = (.ok none, Catalog.deregister s queue project) ∧
    alookup (Catalog.deregister s queue project).catalogue (project, queue)
        = none ∧
    Catalog.deregister (Catalog.deregister s queue project) queue project
        = Catalog.deregister s queue project := by
  refine ⟨?_, ?_, ?_⟩
  · simp [Catalog.lookup, catGet, Catalog.deregister, catDelete,
      alookup_aremove_self]
  · simp [Catalog.deregister, catDelete, alookup_aremove_self]
  · simp [Catalog.deregister, catDelete, aremove_idem]

/-- C5: for a mapped queue whose shard driver is cached,
`QueueController.delete` forwards the delete to the owning shard's queue
controller first and deregisters the catalogue entry only if the backend
deletion succeeds: on a backend error the error propagates and the state —
catalogue entry included — is unchanged; on success the entry is
deregistered and the backend's result is returned. -/
theorem queue_delete_forward_first (factory : Shard → Driver)
    (s : CatalogState) (name : String) (project : Option String)
    (sid : String) (d : Driver)
    (hmap : alookup s.catalogue (project, name) = some sid)
    (hdrv : alookup s.drivers sid = some d) :
    (∀ e : Err, d.queue_delete name project = .error e →
        QueueController.delete factory s name project = (.error e, s)) ∧
    (∀ ret : Option Unit, d.queue_delete name project = .ok ret →
        QueueController.delete factory s name project
          = (.ok ret, Catalog.deregister s name project)) := by
  have hlook : Catalog.lookup factory s name project = (.ok (some d), s) := by
    simp [Catalog.lookup, catGet, hmap, hdrv]
  constructor
  · intro e he
    simp [QueueController.delete, hlook, he]
  · intro ret hr
    simp [QueueController.delete, hlook, hr]

theorem queue_delete_forward_first_witness :
    QueueController.delete defaultFactory
        (CatalogState.mk [((none, "q"), "s1")] [] [("s1", defaultDriver)])
        "q" none
      = (.ok (some ()),
         Catalog.deregister
           (CatalogState.mk [((none, "q"), "s1")] [] [("s1", defaultDriver)])
           "q" none) :=
  (queue_delete_forward_first defaultFactory
      (CatalogState.mk [((none, "q"), "s1")] [] [("s1", defaultDriver)])
      "q" none "s1" defaultDriver rfl rfl).2 (some ()) rfl

/-- C8: the driver cache never revalidates against the shard store: when the
catalogue maps `(project, queue)` to `sid` and a driver for `sid` is cached,
`Catalog.lookup` returns that cached driver with no state change — for every
shard-store content, in particular after the record `sid` was deleted; when no
driver is cached and the record `sid` is absent from the shard store, the
first lookup fails with NotFound (raised by the shard-store get inside
`_init_driver`). -/
theorem lookup_cache_stale (factory : Shard → Driver) (s : CatalogState)
    (queue : String) (project : Option String) (sid : String) (d : Driver)
    (hmap : alookup s.catalogue (project, queue) = some sid) :
    (alookup s.drivers sid = some d →
        Catalog.lookup factory s queue project = (.ok (some d), s)) ∧
    (alookup s.drivers sid = none →
     s.shards.find? (fun sh => sh.name = sid) = none →
        Catalog.lookup factory s queue project = (.error .notFound, s)) := by
  constructor
  · intro hdrv
    simp [Catalog.lookup, catGet, hmap, hdrv]
  · intro hdrv habs
    simp [Catalog.lookup, catGet, hmap, hdrv, Catalog.initDriver, shardsGet,
      habs]

theorem lookup_cache_stale_witness :
    Catalog.lookup defaultFactory
        (CatalogState.mk [((none, "orders"), "s1")] [] [("s1", defaultDriver)])
        "orders" none
      = (.ok (some defaultDriver),
         CatalogState.mk [((none, "orders"), "s1")] [] [("s1", defaultDriver)]) ∧
    Catalog.lookup defaultFactory
        (CatalogState.mk [((none, "orders"), "s1")] [] []) "orders" none
      = (.error .notFound, CatalogState.mk [((none, "orders"), "s1")] [] []) :=
  ⟨(lookup_cache_stale defaultFactory
        (CatalogState.mk [((none, "orders"), "s1")] [] [("s1", defaultDriver)])
        "orders" none "s1" defaultDriver rfl).1 rfl,
   (lookup_cache_stale defaultFactory
        (CatalogState.mk [((none, "orders"), "s1")] [] []) "orders" none "s1"
        defaultDriver rfl).2 rfl rfl⟩

/-- C10: after a successful `Catalog.register` inside
`QueueController.create`, (a) under any concurrent interference that
preserves the catalogue entry for `(project, name)`, the immediate lookup
never yields `none`, so the `assert target` in `create` holds; (b) if a
concurrent `deregister` removes the entry in the register-to-lookup window,
`create` fails with the bare AssertionError `'Failed to register queue'`
(not a domain error such as QueueDoesNotExist). -/
theorem create_assertion_race (factory : Shard → Driver) (s : CatalogState)
    (r : Nat) (name : String) (project : Option String)
    (hok : (Catalog.register s r name project).fst = .ok ()) :
    (∀ interfere : CatalogState → CatalogState,
        alookup (interfere (Catalog.register s r name project).snd).catalogue
            (project, name)
          = alookup (Catalog.register s r name project).snd.catalogue
              (project, name) →
        (Catalog.lookup factory
            (interfere (Catalog.register s r name project).snd) name
            project).fst ≠ .ok none) ∧
    QueueController.createRaced factory
        (fun t => Catalog.deregister t name project) s r name project
      = (.error (.assertionError "Failed to register queue"),
         Catalog.deregister (Catalog.register s r name project).snd name
           project) := by
  have hpair : Catalog.register s r name project
      = (.ok (), (Catalog.register s r name project).snd) := by
    rw [← hok]
  have hex := register_ok_exists s r name project hok
  rw [catExists, Option.isSome_iff_exists] at hex
  obtain ⟨sid, hsid⟩ := hex
  constructor
  · intro interfere hpres
    rw [hsid] at hpres
    cases hdrv : alookup
        (interfere (Catalog.register s r name project).snd).drivers sid with
    | some d =>
        simp [Catalog.lookup, catGet, hpres, hdrv]
    | none =>
        cases hinit : Catalog.initDriver factory
            (interfere (Catalog.register s r name project).snd) sid with
        | error e =>
            simp [Catalog.lookup, catGet, hpres, hdrv, hinit]
        | ok d =>
            simp [Catalog.lookup, catGet, hpres, hdrv, hinit]
  · rw [QueueController.createRaced, hpair]
    simp [Catalog.lookup, catGet, Catalog.deregister, catDelete,
      alookup_aremove_self]

theorem create_assertion_race_witness :
    (Catalog.lookup defaultFactory
        (Catalog.register
          (CatalogState.mk [] [Shard.mk "s1" 1 "mongodb://x" []] []) 0 "q"
          none).snd "q" none).fst ≠ .ok none ∧
    QueueController.createRaced defaultFactory
        (fun t => Catalog.deregister t "q" none)
        (CatalogState.mk [] [Shard.mk "s1" 1 "mongodb://x" []] []) 0 "q" none
      = (.error (.assertionError "Failed to register queue"),
         Catalog.deregister
           (Catalog.register
             (CatalogState.mk [] [Shard.mk "s1" 1 "mongodb://x" []] []) 0 "q"
             none).snd "q" none) :=
  ⟨(create_assertion_race defaultFactory
        (CatalogState.mk [] [Shard.mk "s1" 1 "mongodb://x" []] []) 0 "q" none
        rfl).1 id rfl,
   (create_assertion_race defaultFactory
        (CatalogState.mk [] [Shard.mk "s1" 1 "mongodb://x" []] []) 0 "q" none
        rfl).2⟩

/-- C1 counterexample: on a queue with no catalogue entry, the sharded
`ClaimController.delete` does not raise ClaimDoesNotExist as the claim states
— it returns None (sharding.py lines 264-270 fall through to `return None`). -/
theorem claim_delete_unmapped_cex :
    (ClaimController.delete defaultFactory (CatalogState.mk [] [] []) "q" "c1"
        none).fst = .ok none ∧
    (ClaimController.delete defaultFactory (CatalogState.mk [] [] []) "q" "c1"
        none).fst ≠ .error .claimDoesNotExist :=
  ⟨rfl, fun h => Except.noConfusion h⟩

/-- C1 (amended): on every queue and project with no catalogue entry, the
sharded ClaimController's `create` returns an empty claim result
`[None, []]` (no claim, no messages) rather than raising, `get` and `update`
raise ClaimDoesNotExist, and `delete` returns None without raising; the state
is unchanged in every case. -/
theorem claimController_unmapped (factory : Shard → Driver) (s : CatalogState)
    (queue : String) (claim_id : String) (metadata : String)
    (project : Option String) (limit : Option Nat)
    (hun : alookup s.catalogue (project, queue) = none) :
    ClaimController.create factory s queue metadata project limit
        = (.ok (none, []), s) ∧
    ClaimController.get factory s queue claim_id project
        = (.error .claimDoesNotExist, s) ∧
    ClaimController.update factory s queue claim_id metadata project
        = (.error .claimDoesNotExist, s) ∧
    ClaimController.delete factory s queue claim_id project = (.ok none, s) := by
  have hlook : Catalog.lookup factory s queue project = (.ok none, s) := by
    simp [Catalog.lookup, catGet, hun]
  refine ⟨?_, ?_, ?_, ?_⟩ <;>
    simp [ClaimController.create, ClaimController.get, ClaimController.update,
      ClaimController.delete, hlook]

theorem claimController_unmapped_witness :
    ClaimController.create defaultFactory (CatalogState.mk [] [] []) "q" "m"
        none none
      = (.ok (none, []), CatalogState.mk [] [] []) :=
  (claimController_unmapped defaultFactory (CatalogState.mk [] [] []) "q" "c1"
      "m" none none rfl).1

/-- C6: on every queue and project with no catalogue entry, the sharded
MessageController's `post` and `get` raise QueueDoesNotExist, `list` returns
the listing `[[]]` — a single empty page, i.e. no messages — and `delete`,
`bulk_delete` and `bulk_get` return a neutral empty/absent result (None, None
and the empty list) instead of raising; the state is unchanged in every
case. -/
theorem messageController_unmapped (factory : Shard → Driver)
    (s : CatalogState) (queue : String) (project : Option String)
    (messages : List Nat) (client_uuid : String) (message_id : String)
    (claim : Option String) (message_ids : List String)
    (hun : alookup s.catalogue (project, queue) = none) :
    MessageController.post factory s queue project messages client_uuid
        = (.error .queueDoesNotExist, s) ∧
    MessageController.get factory s queue message_id project
        = (.error .queueDoesNotExist, s) ∧
    MessageController.list factory s queue project = (.ok [[]], s) ∧
    ([[]] : List (List Nat)).flatten = [] ∧
    MessageController.delete factory s queue project message_id claim
        = (.ok none, s) ∧
    MessageController.bulk_delete factory s queue project message_ids
        = (.ok none, s) ∧
    MessageController.bulk_get factory s queue project message_ids
        = (.ok [], s) := by
  have hlook : Catalog.lookup factory s queue project = (.ok none, s) := by
    simp [Catalog.lookup, catGet, hun]
  refine ⟨?_, ?_, ?_, rfl, ?_, ?_, ?_⟩ <;>
    simp [MessageController.post, MessageController.get,
      MessageController.list, MessageController.delete,
      MessageController.bulk_delete, MessageController.bulk_get, hlook]

theorem messageController_unmapped_witness :
    MessageController.post defaultFactory (CatalogState.mk [] [] []) "q" none
        [1, 2] "uuid"
      = (.error .queueDoesNotExist, CatalogState.mk [] [] []) :=
  (messageController_unmapped defaultFactory (CatalogState.mk [] [] []) "q"
      none [1, 2] "uuid" "m1" none ["m1"] rfl).1

theorem setFields_no_match (db : List Partition) (name : String)
    (weight : Option Nat) (hosts : Option (List String))
    (h : ∀ p ∈ db, p.n ≠ name) :
    setFields db name weight hosts = none := by
  induction db with
  | nil => rfl
  | cons hd tl ih =>
      have hhd : hd.n ≠ name := h hd (List.mem_cons_self hd tl)
      have htl : ∀ p ∈ tl, p.n ≠ name := fun p hp =>
        h p (List.mem_cons_of_mem hd hp)
      simp [setFields, hhd, ih htl]

theorem setFields_split (pre : List Partition) (p : Partition)
    (post : List Partition) (name : String) (weight : Option Nat)
    (hosts : Option (List String)) (hpre : ∀ q ∈ pre, q.n ≠ name)
    (hp : p.n = name) :
    setFields (pre ++ p :: post) name weight hosts
      = some (pre ++
          { p with w := weight.getD p.w, h := hosts.getD p.h } :: post) := by
  induction pre with
  | nil => simp [setFields, hp]
  | cons hd tl ih =>
      have hhd : hd.n ≠ name := hpre hd (List.mem_cons_self hd tl)
      have htl : ∀ q ∈ tl, q.n ≠ name := fun q hq =>
        hpre q (List.mem_cons_of_mem hd hq)
      simp [setFields, hhd, ih htl]

/-- C7: `PartitionsController.update` fails with the argument-error
AssertionError when neither weight nor hosts is supplied (regardless of the
record's existence); fails with PartitionNotFound when at least one field is
supplied but no record with that name exists; and otherwise succeeds,
updating only the supplied fields of the matching record and leaving every
other record unchanged. -/
theorem partitions_update_cases (db : List Partition) (name : String)
    (weight : Option Nat) (hosts : Option (List String)) :
    (weight = none ∧ hosts = none →
        PartitionsController.update db name weight hosts
          = .error (.assertionError "`hosts` or `weight` not found in kwargs")) ∧
    (¬(weight = none ∧ hosts = none) → (∀ p ∈ db, p.n ≠ name) →
        PartitionsController.update db name weight hosts
          = .error .partitionNotFound) ∧
    (∀ (pre : List Partition) (p : Partition) (post : List Partition),
        db = pre ++ p :: post → (∀ q ∈ pre, q.n ≠ name) → p.n = name →
        ¬(weight = none ∧ hosts = none) →
        PartitionsController.update db name weight hosts
          = .ok (pre ++
              { p with w := weight.getD p.w, h := hosts.getD p.h } :: post)) := by
  refine ⟨?_, ?_, ?_⟩
  · intro hnone
    simp [PartitionsController.update, hnone]
  · intro hsome habs
    simp [PartitionsController.update, hsome,
      setFields_no_match db name weight hosts habs]
  · intro pre p post hdb hpre hp hsome
    subst hdb
    simp [PartitionsController.update, hsome,
      setFields_split pre p post name weight hosts hpre hp]

theorem partitions_update_cases_witness :
    PartitionsController.update [Partition.mk "s1" ["h1"] 1] "s1" (some 5) none
      = .ok [Partition.mk "s1" ["h1"] 5] :=
  (partitions_update_cases [Partition.mk "s1" ["h1"] 1] "s1" (some 5)
      none).2.2 [] (Partition.mk "s1" ["h1"] 1) [] rfl (by simp) rfl
    (by simp)

/-- C9: the unguarded check-then-build sequence in `Catalog.lookup` admits an
interleaving in which two callers both miss the cache for shard "s1" before
either inserts; two distinct driver instances are then constructed (tags 0
and 1) and the callers observe different instances — refuting "exactly one
driver instance is constructed and all N callers observe the same
instance". -/
theorem driver_cache_race :
    ∃ dA dB s₂,
      lookupFirstUseRace mkDriver
          (CatalogState.mk [((none, "q"), "s1")]
            [Shard.mk "s1" 1 "mongodb://x" []] []) "s1"
        = some (dA, dB, s₂) ∧
      dA.tag = 0 ∧ dB.tag = 1 ∧ dA ≠ dB := by
  refine ⟨mkDriver 0, mkDriver 1, _, rfl, rfl, rfl, ?_⟩
  intro h
  have htag := congrArg Driver.tag h
  simp [mkDriver] at htag
